import Mathlib

/-!
Shallow embedding of the contract-related parts of the SamiCopy/2k25
blockchain server: the global constants of Blockchain/config.js, the WASM
contract execution helper runWasmContract of Blockchain/index.js, and the
two HTTP route handlers POST /api/contract/deploy and
POST /api/contract/interact of Blockchain/index.js.

JavaScript numbers that carry money or gas are modelled as rationals
(the claims under verification do not hinge on binary floating point
rounding), JSON-like contract state as an association list from string
keys to values, and fallible code as Except.
-/

/- ── Blockchain/config.js ─────────────────────────────────────────── -/

/-- config.js: MINE_RATE = 1000 (the 1-second proof-of-work target). -/
def MINE_RATE : ℕ := 1000

/-- config.js: INITIAL_DIFFICULTY = 3. -/
def INITIAL_DIFFICULTY : ℕ := 3

/-- config.js: STARTING_BALANCE = 1000. -/
def STARTING_BALANCE : ℚ := 1000

/-- config.js: MINING_REWARD = 50 (the base reward, multiplied later). -/
def MINING_REWARD : ℚ := 50

/-- config.js: FIXED_GAS_PRICE = 0.1. -/
def FIXED_GAS_PRICE : ℚ := 0.1

/-- Modelled from the spec: a block data entry is a Transaction (the
wallet/transaction module of the repository is not under src/); only the
element type of the data field of a block is needed here. -/
structure Transaction where
  id : String
deriving DecidableEq

/-- A block as laid out by the GENESIS_DATA object literal of config.js. -/
structure Block where
  timestamp : ℕ
  lastHash : String
  hash : String
  difficulty : ℕ
  nonce : ℕ
  data : List Transaction
deriving DecidableEq

/-- config.js: the GENESIS_DATA constant object. -/
def GENESIS_DATA : Block :=
  { timestamp := 1
    lastHash := "------"
    hash := "hash-one"
    difficulty := INITIAL_DIFFICULTY
    nonce := 0
    data := [] }

/- ── JSON-like values and contract state ──────────────────────────── -/

/-- A JavaScript value as it occurs in the contract engine: the null
initialiser of resultVal, the undefined result of a void export, or a
numeric result. -/
inductive JsValue
  | null
  | undef
  | num (q : ℚ)
deriving DecidableEq

/-- The JSON-like state blob of a contract document, as key-value pairs. -/
abbrev ContractState := List (String × JsValue)

/-- JavaScript property assignment obj[k] = v on an object copy: the key
k now maps to v and every other key is unchanged (association lists are
compared through lookup). -/
def setKey (s : ContractState) (k : String) (v : JsValue) : ContractState :=
  (k, v) :: s.filter (fun p => p.1 != k)

/- ── The WebAssembly runtime as seen by index.js ──────────────────── -/

/-- Ambient host state available to the node process at execution time
(a clock, a randomness source, a network). index.js never hands any of
this to contract code: WebAssembly.instantiate is called with an
empty import object. -/
structure HostEnv where
  clock : ℕ
  randomSeed : ℕ
  network : String → Option String

/-- The import object passed to WebAssembly.instantiate: either the empty
object of index.js, or an object granting host capabilities. -/
inductive WasmImports
  | empty
  | host (env : HostEnv)

/-- An exported WASM function: numeric arguments to an optional result,
where none models a trap (a thrown exception). -/
abbrev WasmFn := List ℚ → Option JsValue

/-- The kind of a static module export, as reported by
WebAssembly.Module.exports. -/
inductive ExportKind
  | function
  | memory
  | global
  | table
deriving DecidableEq, BEq

/-- One entry of WebAssembly.Module.exports: a name and a kind. -/
structure ExportDesc where
  name : String
  kind : ExportKind

/-- A compiled WASM module: its statically discoverable export
descriptors, and the exported functions of an instantiation under a
given import object (none for a name that is not an exported function,
matching the typeof instance.exports[name] check of index.js). -/
structure WasmModule where
  exportDescs : List ExportDesc
  instanceExports : WasmImports → String → Option WasmFn

/-- The WebAssembly engine: compilation of a byte buffer, which rejects
on an invalid module. -/
structure WasmSem where
  compile : List ℕ → Except Unit WasmModule

/- ── runWasmContract (index.js) ───────────────────────────────────── -/

/-- A stored contract document: decoded WASM bytes and the JSON-like
state blob. -/
structure ContractDoc where
  codeWasm : List ℕ
  state : ContractState

/-- The failures runWasmContract can raise: a rejected compile or
instantiate, the throw "Out of gas before function call", the throw
"Out of gas (code size cost too high)", or an exception thrown by the
invoked export. -/
inductive RunError
  | compileError
  | outOfGasBeforeCall
  | outOfGasCodeSize
  | trap
deriving DecidableEq

/-- The successful return value of runWasmContract:
newState, usedGas, result. -/
structure RunResult where
  newState : ContractState
  usedGas : ℚ
  result : JsValue
deriving DecidableEq

/-- The else branch of runWasmContract (index.js): charge
codeSize = wasmBuffer.length gas, throw when that exceeds gasLimit,
otherwise return the spread copy of doc.state, the gas used, and the
null resultVal. -/
def runDeployPath (doc : ContractDoc) (gasLimit : ℚ) : Except RunError RunResult :=
  let codeSize : ℚ := doc.codeWasm.length
  if codeSize > gasLimit then .error .outOfGasCodeSize
  else .ok ⟨doc.state, codeSize, .null⟩

/-- runWasmContract (index.js): compile the buffer, instantiate it with
the EMPTY import object (so nothing of env is reachable from contract
code), and dispatch: when functionName is truthy and names an exported
function, charge 200 gas, throw when that exceeds gasLimit, call the
function, and set newState.lastCallResult to its result; otherwise take
the code-size path. -/
def runWasmContract (sem : WasmSem) (env : HostEnv) (doc : ContractDoc)
    (functionName : Option String) (functionArgs : List ℚ) (gasLimit : ℚ) :
    Except RunError RunResult :=
  match sem.compile doc.codeWasm with
  | .error _ => .error .compileError
  | .ok m =>
    let inst := m.instanceExports WasmImports.empty
    match functionName with
    | none => runDeployPath doc gasLimit
    | some fn =>
      if fn = "" then runDeployPath doc gasLimit
      else
        match inst fn with
        | none => runDeployPath doc gasLimit
        | some f =>
          let gasUsed : ℚ := 0 + 200
          if gasUsed > gasLimit then .error .outOfGasBeforeCall
          else
            match f functionArgs with
            | none => .error .trap
            | some v => .ok ⟨setKey doc.state "lastCallResult" v, gasUsed, v⟩

/-- The state of the contract store after a call, reflecting the throw
semantics of index.js: a successful call returns newState for the caller
to commit, a thrown error returns nothing, so the stored state stays as
it was. -/
def commitRun (doc : ContractDoc) (out : Except RunError RunResult) : ContractState :=
  match out with
  | .ok r => r.newState
  | .error _ => doc.state

/- ── JavaScript Number coercion for functionArgs ──────────────────── -/

/-- A JavaScript value as it may appear in the functionArgs array of an
interact request body, represented by enough constructors to cover every
Number coercion outcome. -/
inductive JsArg
  | null
  | undef
  | boolean (b : Bool)
  | numLit (q : ℚ)
  | nanLit
  | strNum (q : ℚ)
  | strBad
  | obj
deriving DecidableEq

/-- JavaScript Number(v): none models NaN. Number(null) = 0,
Number(undefined) = NaN, Number(true) = 1, Number(false) = 0, a numeric
literal is itself, a numeric string parses, a non-numeric string and a
plain object give NaN. -/
def toNumber : JsArg → Option ℚ
  | .null => some 0
  | .undef => none
  | .boolean b => some (if b then 1 else 0)
  | .numLit q => some q
  | .nanLit => none
  | .strNum q => some q
  | .strBad => none
  | .obj => none

/-- The per-element coercion Number(v) || 0 of index.js: NaN and the
falsy number 0 become 0, every other number is kept. -/
def numberOr0 (v : JsArg) : ℚ :=
  match toNumber v with
  | none => 0
  | some x => if x = 0 then 0 else x

/-- The functionArgs normalisation of the interact route:
Array.isArray(functionArgs) ? functionArgs.map(v => Number(v) || 0) : []
(none models a request value that is not an array). -/
def coerceArgs : Option (List JsArg) → List ℚ
  | none => []
  | some l => l.map numberOr0

/- ── Shared route helpers ─────────────────────────────────────────── -/

/-- JavaScript truthiness of an optional string field of a request body:
absent (undefined/null) and the empty string are falsy. -/
def jsTruthy : Option String → Bool
  | none => false
  | some s => s != ""

/-- Modelled from the spec: Wallet.createTransaction (the wallet module
of the repository is not under src/) fails with an insufficient-funds
error iff the requested amount exceeds the sender balance; both contract
routes call it with amount 0. -/
def createTransaction (balance amount : ℚ) : Except String Unit :=
  if amount > balance then .error "InsufficientFunds" else .ok ()

/- ── POST /api/contract/deploy (index.js) ─────────────────────────── -/

/-- The failures of the deploy route, in the order its guards occur. -/
inductive DeployErr
  | reLogin
  | noRustCode
  | invalidGasLimit
  | needFunds
  | compileFailed (stderr : String)
  | wasmMissing
  | outOfGas
  | txCreateFailed (msg : String)
deriving DecidableEq

/-- The SMART_CONTRACT deploy transaction fields recorded by the route
and returned in its response. -/
structure DeployTx where
  contractAddress : String
  codeSize : ℕ
  gasLimit : ℚ
  exportedFunctions : List String
  gasPrice : ℚ
  isDeploy : Bool
deriving DecidableEq

/-- The outcome of the external cargo build step: the compiler stderr on
failure, none when the build succeeded but the .wasm artifact is absent,
or the produced WASM bytes. -/
abbrev CargoResult := Except String (Option (List ℕ))

/-- POST /api/contract/deploy (index.js), with the external inputs as
parameters: ephPresent is the ephemeral-key session check, balance is
Wallet.calculateBalance over the chain, cargo is the cargo build outcome,
freshAddr is the randomly generated contract address. Guards in source
order: session, rustCode truthy, gasLimit positive, balance at least
gasLimit times FIXED_GAS_PRICE, build succeeded, artifact present,
codeSize at most gasLimit; then exported function names are discovered
statically (empty on a failed compile, the try/catch), and the signed
transaction is created and pooled. -/
def deployRoute (sem : WasmSem) (ephPresent : Bool) (balance : ℚ)
    (rustCode : Option String) (gasLimit : ℚ) (cargo : CargoResult)
    (freshAddr : String) : Except DeployErr DeployTx :=
  if !ephPresent then .error .reLogin
  else if !(jsTruthy rustCode) then .error .noRustCode
  else if gasLimit ≤ 0 then .error .invalidGasLimit
  else if balance < gasLimit * FIXED_GAS_PRICE then .error .needFunds
  else
    match cargo with
    | .error stderr => .error (.compileFailed stderr)
    | .ok none => .error .wasmMissing
    | .ok (some wasmBuffer) =>
      let codeSize := wasmBuffer.length
      if (codeSize : ℚ) > gasLimit then .error .outOfGas
      else
        let fnExports :=
          match sem.compile wasmBuffer with
          | .ok m => (m.exportDescs.filter (fun e => e.kind == ExportKind.function)).map (fun e => e.name)
          | .error _ => []
        match createTransaction balance 0 with
        | .error msg => .error (.txCreateFailed msg)
        | .ok _ => .ok ⟨freshAddr, codeSize, gasLimit, fnExports, FIXED_GAS_PRICE, true⟩

/- ── POST /api/contract/interact (index.js) ───────────────────────── -/

/-- The failures of the interact route, in the order its guards occur. -/
inductive InteractErr
  | reLogin
  | missingFields
  | gasLimitRequired
  | needFunds
  | insufficientGasLimit
  | txCreateFailed (msg : String)
deriving DecidableEq

/-- The SMART_CONTRACT invoke transaction fields recorded by the route
and returned in its response (cost is the fixed 200 echoed back). -/
structure InteractTx where
  contractAddress : String
  functionName : String
  functionArgs : List ℚ
  gasLimit : ℚ
  gasPrice : ℚ
  isDeploy : Bool
  cost : ℚ
deriving DecidableEq

/-- POST /api/contract/interact (index.js), with the external inputs as
parameters. Guards in source order: session, contractAddress and
functionName truthy, gasLimit positive, balance at least gasLimit times
FIXED_GAS_PRICE, gasLimit at least 200; then the signed transaction is
created with the coerced numeric functionArgs and pooled. -/
def interactRoute (ephPresent : Bool) (balance : ℚ)
    (contractAddress functionName : Option String)
    (functionArgs : Option (List JsArg)) (gasLimit : ℚ) :
    Except InteractErr InteractTx :=
  if !ephPresent then .error .reLogin
  else if !(jsTruthy contractAddress && jsTruthy functionName) then .error .missingFields
  else if gasLimit ≤ 0 then .error .gasLimitRequired
  else if balance < gasLimit * FIXED_GAS_PRICE then .error .needFunds
  else if gasLimit < 200 then .error .insufficientGasLimit
  else
    match createTransaction balance 0 with
    | .error msg => .error (.txCreateFailed msg)
    | .ok _ =>
      .ok ⟨contractAddress.getD "", functionName.getD "", coerceArgs functionArgs,
           gasLimit, FIXED_GAS_PRICE, false, 200⟩

/- ── Concrete instances for evaluation ────────────────────────────── -/

/-- Whether an Except value is a success. -/
def isOkE {ε α : Type} : Except ε α → Bool
  | .ok _ => true
  | .error _ => false

/-- A concrete quiescent host environment. -/
def exEnv : HostEnv := ⟨0, 0, fun _ => none⟩

/-- A concrete exported function: the sum of its arguments. -/
def exAdd : WasmFn := fun a => some (.num (a.foldl (· + ·) 0))

/-- A concrete compiled module exporting the function add and a memory. -/
def exModule : WasmModule :=
  { exportDescs := [⟨"add", .function⟩, ⟨"memory", .memory⟩]
    instanceExports := fun _ n => if n = "add" then some exAdd else none }

/-- A concrete WebAssembly engine that compiles every buffer to
exModule. -/
def exSem : WasmSem := ⟨fun _ => .ok exModule⟩

/-- A concrete stored contract: three bytes of code and one state key. -/
def exDoc : ContractDoc := ⟨[0, 97, 115], [("x", .num 7)]⟩

/- ── Helper lemmas ────────────────────────────────────────────────── -/

/-- Lookup of a key that is not k is unaffected by filtering out k. -/
theorem lookup_filter_ne (s : ContractState) (k k2 : String) (h : k2 ≠ k) :
    (s.filter (fun p => p.1 != k)).lookup k2 = s.lookup k2 := by
  induction s with
  | nil => rfl
  | cons p t ih =>
    rcases p with ⟨a, b⟩
    by_cases hp : a = k
    · have hdrop : (((a, b) : String × JsValue).1 != k) = false := by
        simp [hp]
      have hne : (k2 == a) = false := beq_false_of_ne (hp ▸ h)
      simp [List.filter_cons, hdrop, List.lookup, hne, ih]
    · have hkeep : (((a, b) : String × JsValue).1 != k) = true := by
        simp [bne_iff_ne, hp]
      by_cases hk : k2 = a
      · simp [List.filter_cons, hkeep, List.lookup, hk]
      · simp [List.filter_cons, hkeep, List.lookup, beq_false_of_ne hk, ih]

/-- setKey makes k map to v. -/
theorem lookup_setKey_self (s : ContractState) (k : String) (v : JsValue) :
    (setKey s k v).lookup k = some v := by
  simp [setKey, List.lookup]

/-- setKey leaves every other key unchanged. -/
theorem lookup_setKey_ne (s : ContractState) (k k2 : String) (v : JsValue)
    (h : k2 ≠ k) : (setKey s k v).lookup k2 = s.lookup k2 := by
  simp only [setKey, List.lookup, beq_false_of_ne h]
  exact lookup_filter_ne s k k2 h

/-- Characterisation of runWasmContract when functionName names an
exported function of the instantiation. -/
theorem runWasmContract_invoke_eq (sem : WasmSem) (env : HostEnv)
    (doc : ContractDoc) (fn : String) (f : WasmFn) (args : List ℚ)
    (gasLimit : ℚ) (m : WasmModule)
    (hc : sem.compile doc.codeWasm = Except.ok m)
    (hfn : fn ≠ "")
    (hf : m.instanceExports WasmImports.empty fn = some f) :
    runWasmContract sem env doc (some fn) args gasLimit =
      if (0 + 200 : ℚ) > gasLimit then Except.error RunError.outOfGasBeforeCall
      else
        match f args with
        | none => Except.error RunError.trap
        | some v => Except.ok ⟨setKey doc.state "lastCallResult" v, 0 + 200, v⟩ := by
  unfold runWasmContract
  rw [hc]
  simp [hfn, hf]

/-- Characterisation of runWasmContract when functionName does not name
an exported function of the instantiation: the code-size path runs. -/
theorem runWasmContract_missing_eq (sem : WasmSem) (env : HostEnv)
    (doc : ContractDoc) (fn : String) (args : List ℚ) (gasLimit : ℚ)
    (m : WasmModule)
    (hc : sem.compile doc.codeWasm = Except.ok m)
    (hmiss : m.instanceExports WasmImports.empty fn = none) :
    runWasmContract sem env doc (some fn) args gasLimit =
      runDeployPath doc gasLimit := by
  unfold runWasmContract
  rw [hc]
  by_cases hfn : fn = "" <;> simp [hfn, hmiss]

/- ── Claim theorems ───────────────────────────────────────────────── -/

/-- C7: the genesis block is the fixed constant block with timestamp 1,
lastHash "------", difficulty 3, nonce 0, and an empty data sequence
(GENESIS_DATA of config.js). -/
theorem genesis_block_constants :
    GENESIS_DATA.timestamp = 1 ∧ GENESIS_DATA.lastHash = "------" ∧
    GENESIS_DATA.difficulty = 3 ∧ GENESIS_DATA.nonce = 0 ∧
    GENESIS_DATA.data = [] :=
  ⟨rfl, rfl, rfl, rfl, rfl⟩

/-- C8: the configuration constants of config.js have the documented
default values: MINE_RATE is 1000 ms, the initial difficulty is 3, the
starting balance is 1000, the base mining reward is 50, and the fixed
gas price is 0.1 = 1/10. -/
theorem config_default_constants :
    MINE_RATE = 1000 ∧ INITIAL_DIFFICULTY = 3 ∧ STARTING_BALANCE = 1000 ∧
    MINING_REWARD = 50 ∧ FIXED_GAS_PRICE = 1 / 10 := by
  refine ⟨rfl, rfl, rfl, rfl, ?_⟩
  norm_num [FIXED_GAS_PRICE]

/-- C6: contract execution is deterministic: runWasmContract instantiates
the module with the empty import object, so no capability of the ambient
host environment (clock, randomness, network) reaches contract code, and
two executions of the same invoke against the same prior document, the
same arguments and the same gas limit, under arbitrary host environments,
return the same outcome (same result value and same new state). -/
theorem contract_execution_deterministic (sem : WasmSem)
    (env1 env2 : HostEnv) (doc : ContractDoc) (functionName : Option String)
    (functionArgs : List ℚ) (gasLimit : ℚ) :
    runWasmContract sem env1 doc functionName functionArgs gasLimit =
      runWasmContract sem env2 doc functionName functionArgs gasLimit := rfl

/-- C1 counterexample: invoking a functionName that is NOT an exported
function of the instantiated module does not fail at all when the code
size fits the gas limit: on the concrete document exDoc (three code
bytes) with the missing name "missing" and gasLimit 1000, runWasmContract
returns success (the code-size deploy path), not a FunctionNotFound
failure. -/
theorem missing_function_cex :
    runWasmContract exSem exEnv exDoc (some "missing") [] 1000 =
      Except.ok ⟨exDoc.state, ((3 : ℕ) : ℚ), JsValue.null⟩ := by
  simp [runWasmContract, runDeployPath, exSem, exModule, exDoc]
  norm_num

/-- C1 amended: if functionName is not an exported function of the
instantiated module, the engine raises no FunctionNotFound error;
it falls through to the code-size (deploy) branch: the function is never
invoked and lastCallResult is never written; the call is charged
bytecode-length gas, fails with the code-size OutOfGas throw if that
exceeds gasLimit, and otherwise returns success with the contract state
unchanged and a null result. -/
theorem missing_function_deploy_path (sem : WasmSem) (env : HostEnv)
    (doc : ContractDoc) (fn : String) (args : List ℚ) (gasLimit : ℚ)
    (m : WasmModule)
    (hc : sem.compile doc.codeWasm = Except.ok m)
    (hmiss : m.instanceExports WasmImports.empty fn = none) :
    (gasLimit < (doc.codeWasm.length : ℚ) →
      runWasmContract sem env doc (some fn) args gasLimit =
        Except.error RunError.outOfGasCodeSize) ∧
    ((doc.codeWasm.length : ℚ) ≤ gasLimit →
      runWasmContract sem env doc (some fn) args gasLimit =
        Except.ok ⟨doc.state, (doc.codeWasm.length : ℚ), JsValue.null⟩) := by
  rw [runWasmContract_missing_eq sem env doc fn args gasLimit m hc hmiss]
  unfold runDeployPath
  constructor
  · intro hlt
    rw [if_pos hlt]
  · intro hle
    rw [if_neg (not_lt.mpr hle)]

/-- C1 witness: the amended behaviour at a concrete input: on exDoc with
the missing name "nope", gasLimit 2 is below the code size 3 and the call
fails with the code-size OutOfGas throw, while gasLimit 1000 returns the
unchanged state and a null result. -/
theorem missing_function_deploy_path_witness :
    runWasmContract exSem exEnv exDoc (some "nope") [] 2 =
      Except.error RunError.outOfGasCodeSize ∧
    runWasmContract exSem exEnv exDoc (some "nope") [] 1000 =
      Except.ok ⟨exDoc.state, ((3 : ℕ) : ℚ), JsValue.null⟩ := by
  constructor
  · exact (missing_function_deploy_path exSem exEnv exDoc "nope" [] 2 exModule
      rfl (by simp [exModule])).1 (by norm_num [exDoc])
  · have := (missing_function_deploy_path exSem exEnv exDoc "nope" [] 1000 exModule
      rfl (by simp [exModule])).2 (by norm_num [exDoc])
    simpa [exDoc] using this

/-- Characterisation of runWasmContract when compilation rejects. -/
theorem runWasmContract_compile_fail_eq (sem : WasmSem) (env : HostEnv)
    (doc : ContractDoc) (functionName : Option String) (args : List ℚ)
    (gasLimit : ℚ) (hc : sem.compile doc.codeWasm = Except.error ()) :
    runWasmContract sem env doc functionName args gasLimit =
      Except.error RunError.compileError := by
  unfold runWasmContract
  rw [hc]

/-- Characterisation of runWasmContract with no functionName. -/
theorem runWasmContract_noName_eq (sem : WasmSem) (env : HostEnv)
    (doc : ContractDoc) (args : List ℚ) (gasLimit : ℚ) (m : WasmModule)
    (hc : sem.compile doc.codeWasm = Except.ok m) :
    runWasmContract sem env doc none args gasLimit =
      runDeployPath doc gasLimit := by
  unfold runWasmContract
  rw [hc]

/-- Characterisation of runWasmContract with the falsy empty
functionName. -/
theorem runWasmContract_emptyName_eq (sem : WasmSem) (env : HostEnv)
    (doc : ContractDoc) (args : List ℚ) (gasLimit : ℚ) (m : WasmModule)
    (hc : sem.compile doc.codeWasm = Except.ok m) :
    runWasmContract sem env doc (some "") args gasLimit =
      runDeployPath doc gasLimit := by
  unfold runWasmContract
  rw [hc]
  simp

/-- A successful code-size path never uses more gas than the limit. -/
theorem runDeployPath_ok_gas (doc : ContractDoc) (gasLimit : ℚ) (r : RunResult)
    (h : runDeployPath doc gasLimit = Except.ok r) : r.usedGas ≤ gasLimit := by
  simp only [runDeployPath] at h
  split at h
  · cases h
  · next hng =>
    cases h
    exact le_of_not_lt hng

/-- C2: invoking an exported function is charged the fixed call cost of
200 gas units: when 200 exceeds gasLimit the call fails with the
OutOfGas throw raised before the function is invoked (the conclusion does
not depend on the behaviour of f, and the error carries no state), and
every successful invoke reports exactly 200 gas used. -/
theorem invoke_fixed_cost_gate (sem : WasmSem) (env : HostEnv)
    (doc : ContractDoc) (fn : String) (f : WasmFn) (args : List ℚ)
    (gasLimit : ℚ) (m : WasmModule)
    (hc : sem.compile doc.codeWasm = Except.ok m)
    (hfn : fn ≠ "")
    (hf : m.instanceExports WasmImports.empty fn = some f) :
    (gasLimit < 200 →
      runWasmContract sem env doc (some fn) args gasLimit =
        Except.error RunError.outOfGasBeforeCall) ∧
    (∀ r, runWasmContract sem env doc (some fn) args gasLimit = Except.ok r →
      r.usedGas = 200) := by
  rw [runWasmContract_invoke_eq sem env doc fn f args gasLimit m hc hfn hf]
  constructor
  · intro h
    rw [if_pos (by linarith : (0 + 200 : ℚ) > gasLimit)]
  · intro r hr
    by_cases hg : (0 + 200 : ℚ) > gasLimit
    · rw [if_pos hg] at hr
      cases hr
    · rw [if_neg hg] at hr
      cases hfa : f args with
      | none => simp [hfa] at hr
      | some v =>
        simp only [hfa] at hr
        cases hr
        norm_num

/-- C2 witness: with the concrete module exporting add, an invoke with
gasLimit 150 (below the fixed 200-unit call cost) fails with the
OutOfGas throw. -/
theorem invoke_fixed_cost_gate_witness :
    runWasmContract exSem exEnv exDoc (some "add") [] 150 =
      Except.error RunError.outOfGasBeforeCall :=
  (invoke_fixed_cost_gate exSem exEnv exDoc "add" exAdd [] 150 exModule rfl
    (by simp) (by simp [exModule])).1 (by norm_num)

/-- C4: a within-budget invoke of an exported function that returns a
value yields exactly the prior contract state with the result merged
under the reserved lastCallResult key: that key now holds the result and
every other state field reads unchanged. -/
theorem invoke_merges_lastCallResult (sem : WasmSem) (env : HostEnv)
    (doc : ContractDoc) (fn : String) (f : WasmFn) (args : List ℚ)
    (gasLimit : ℚ) (m : WasmModule) (v : JsValue)
    (hc : sem.compile doc.codeWasm = Except.ok m)
    (hfn : fn ≠ "")
    (hf : m.instanceExports WasmImports.empty fn = some f)
    (hgas : (200 : ℚ) ≤ gasLimit)
    (hret : f args = some v) :
    runWasmContract sem env doc (some fn) args gasLimit =
      Except.ok ⟨setKey doc.state "lastCallResult" v, 200, v⟩ ∧
    (setKey doc.state "lastCallResult" v).lookup "lastCallResult" = some v ∧
    ∀ k, k ≠ "lastCallResult" →
      (setKey doc.state "lastCallResult" v).lookup k = doc.state.lookup k := by
  refine ⟨?_, lookup_setKey_self _ _ _, fun k hk => lookup_setKey_ne _ _ _ _ hk⟩
  rw [runWasmContract_invoke_eq sem env doc fn f args gasLimit m hc hfn hf]
  rw [if_neg (by linarith : ¬ (0 + 200 : ℚ) > gasLimit)]
  simp [hret]

/-- C4 witness: invoking add with arguments 2 and 3 and gasLimit 1000 on
exDoc returns state with lastCallResult set to 5, and the unrelated key
x reads unchanged. -/
theorem invoke_merges_lastCallResult_witness :
    runWasmContract exSem exEnv exDoc (some "add") [2, 3] 1000 =
      Except.ok ⟨setKey exDoc.state "lastCallResult" (JsValue.num 5), 200,
        JsValue.num 5⟩ ∧
    (setKey exDoc.state "lastCallResult" (JsValue.num 5)).lookup "x" =
      exDoc.state.lookup "x" := by
  have h := invoke_merges_lastCallResult exSem exEnv exDoc "add" exAdd [2, 3]
    1000 exModule (JsValue.num 5) rfl (by simp) (by simp [exModule])
    (by norm_num) (by norm_num [exAdd])
  exact ⟨h.1, h.2.2 "x" (by decide)⟩

/-- C5: runWasmContract is all-or-nothing with bounded gas: every
successful outcome (deploy path or invoke path) reports usedGas at most
gasLimit, and every failing outcome commits no state mutation at all
(the store keeps the prior document state). -/
theorem gas_bounded_all_or_nothing (sem : WasmSem) (env : HostEnv)
    (doc : ContractDoc) (functionName : Option String) (args : List ℚ)
    (gasLimit : ℚ) :
    (∀ r, runWasmContract sem env doc functionName args gasLimit = Except.ok r →
      r.usedGas ≤ gasLimit) ∧
    (∀ e, runWasmContract sem env doc functionName args gasLimit = Except.error e →
      commitRun doc (runWasmContract sem env doc functionName args gasLimit) =
        doc.state) := by
  constructor
  · intro r hr
    cases hcomp : sem.compile doc.codeWasm with
    | error u =>
      cases u
      rw [runWasmContract_compile_fail_eq sem env doc functionName args gasLimit
        hcomp] at hr
      cases hr
    | ok m =>
      cases functionName with
      | none =>
        rw [runWasmContract_noName_eq sem env doc args gasLimit m hcomp] at hr
        exact runDeployPath_ok_gas doc gasLimit r hr
      | some fn =>
        by_cases hfn : fn = ""
        · subst hfn
          rw [runWasmContract_emptyName_eq sem env doc args gasLimit m hcomp] at hr
          exact runDeployPath_ok_gas doc gasLimit r hr
        · cases hexp : m.instanceExports WasmImports.empty fn with
          | none =>
            rw [runWasmContract_missing_eq sem env doc fn args gasLimit m hcomp
              hexp] at hr
            exact runDeployPath_ok_gas doc gasLimit r hr
          | some f =>
            rw [runWasmContract_invoke_eq sem env doc fn f args gasLimit m hcomp
              hfn hexp] at hr
            by_cases hg : (0 + 200 : ℚ) > gasLimit
            · rw [if_pos hg] at hr
              cases hr
            · rw [if_neg hg] at hr
              cases hfa : f args with
              | none => simp [hfa] at hr
              | some v =>
                simp only [hfa] at hr
                cases hr
                simpa using le_of_not_lt hg
  · intro e he
    rw [he]
    rfl

/-- C5 witness: a concrete successful call on exDoc with gasLimit 1000
reports 3 gas used, at most the limit. -/
theorem gas_bounded_all_or_nothing_witness : ((3 : ℕ) : ℚ) ≤ 1000 :=
  (gas_bounded_all_or_nothing exSem exEnv exDoc none [] 1000).1
    ⟨exDoc.state, ((3 : ℕ) : ℚ), JsValue.null⟩ (by norm_num [runWasmContract,
      runDeployPath, exSem, exDoc])

/-- C3: deployment gas cost equals the bytecode length: past the session,
rustCode, gasLimit and fee guards, a build whose wasm artifact is longer
than gasLimit is refused with the OutOfGas response before any
transaction is created, and one that fits succeeds with a deploy
transaction recording exactly the statically discovered exported function
names of the compiled module. -/
theorem deploy_gas_cost_code_size (sem : WasmSem) (balance : ℚ)
    (rustCode : Option String) (gasLimit : ℚ) (wasmBuffer : List ℕ)
    (freshAddr : String) (m : WasmModule)
    (hrust : jsTruthy rustCode = true)
    (hgl : 0 < gasLimit)
    (hbal : gasLimit * FIXED_GAS_PRICE ≤ balance)
    (hcomp : sem.compile wasmBuffer = Except.ok m) :
    (gasLimit < (wasmBuffer.length : ℚ) →
      deployRoute sem true balance rustCode gasLimit
        (Except.ok (some wasmBuffer)) freshAddr =
          Except.error DeployErr.outOfGas) ∧
    ((wasmBuffer.length : ℚ) ≤ gasLimit →
      deployRoute sem true balance rustCode gasLimit
        (Except.ok (some wasmBuffer)) freshAddr =
          Except.ok ⟨freshAddr, wasmBuffer.length, gasLimit,
            (m.exportDescs.filter
              (fun e => e.kind == ExportKind.function)).map (fun e => e.name),
            FIXED_GAS_PRICE, true⟩) := by
  have hprice : (0 : ℚ) < FIXED_GAS_PRICE := by norm_num [FIXED_GAS_PRICE]
  have hbal0 : (0 : ℚ) ≤ balance :=
    le_trans (le_of_lt (mul_pos hgl hprice)) hbal
  unfold deployRoute
  rw [hrust]
  simp only [Bool.not_true, Bool.false_eq_true, if_false,
    if_neg (not_le.mpr hgl), if_neg (not_lt.mpr hbal)]
  constructor
  · intro hlt
    rw [if_pos hlt]
  · intro hle
    rw [if_neg (not_lt.mpr hle), hcomp]
    unfold createTransaction
    rw [if_neg (not_lt.mpr hbal0)]

/-- C3 witness: the example of the spec: a 5000-byte artifact is refused
OutOfGas at gasLimit 4000 and deploys at gasLimit 6000, recording the
exported function names of the module (add). -/
theorem deploy_gas_cost_code_size_witness :
    deployRoute exSem true 1000 (some "fn main") 4000
      (Except.ok (some (List.replicate 5000 0))) "addr" =
        Except.error DeployErr.outOfGas ∧
    deployRoute exSem true 1000 (some "fn main") 6000
      (Except.ok (some (List.replicate 5000 0))) "addr" =
        Except.ok ⟨"addr", 5000, 6000, ["add"], FIXED_GAS_PRICE, true⟩ := by
  constructor
  · exact (deploy_gas_cost_code_size exSem 1000 (some "fn main") 4000
      (List.replicate 5000 0) "addr" exModule (by simp [jsTruthy])
      (by norm_num) (by norm_num [FIXED_GAS_PRICE]) rfl).1
      (by rw [List.length_replicate]; norm_num)
  · have h := (deploy_gas_cost_code_size exSem 1000 (some "fn main") 6000
      (List.replicate 5000 0) "addr" exModule (by simp [jsTruthy])
      (by norm_num) (by norm_num [FIXED_GAS_PRICE]) rfl).2
      (by rw [List.length_replicate]; norm_num)
    rw [List.length_replicate] at h
    have hexp : (exModule.exportDescs.filter
        (fun e => e.kind == ExportKind.function)).map (fun e => e.name) =
          ["add"] := rfl
    rw [hexp] at h
    exact h

/-- C9: the implicit fee precondition of both contract routes: whenever
the chain-computed balance of the caller is below gasLimit times the
fixed gas price 0.1, the deploy and the interact request are both
refused with an error response and no transaction value is produced. -/
theorem fee_precondition_refusal (sem : WasmSem) (ephPresent : Bool)
    (balance : ℚ) (rustCode : Option String) (gasLimit : ℚ)
    (cargo : CargoResult) (freshAddr : String)
    (contractAddress functionName : Option String)
    (functionArgs : Option (List JsArg))
    (hfee : balance < gasLimit * FIXED_GAS_PRICE) :
    isOkE (deployRoute sem ephPresent balance rustCode gasLimit cargo
      freshAddr) = false ∧
    isOkE (interactRoute ephPresent balance contractAddress functionName
      functionArgs gasLimit) = false := by
  constructor
  · cases ephPresent with
    | false => simp [deployRoute, isOkE]
    | true =>
      cases hrc : jsTruthy rustCode with
      | false => simp [deployRoute, isOkE, hrc]
      | true =>
        by_cases hgl : gasLimit ≤ 0
        · simp [deployRoute, isOkE, hrc, hgl]
        · simp [deployRoute, isOkE, hrc, hgl, hfee]
  · cases ephPresent with
    | false => simp [interactRoute, isOkE]
    | true =>
      cases hflds : (jsTruthy contractAddress && jsTruthy functionName) with
      | false => simp [interactRoute, isOkE, hflds]
      | true =>
        by_cases hgl : gasLimit ≤ 0
        · simp [interactRoute, isOkE, hflds, hgl]
        · simp [interactRoute, isOkE, hflds, hgl, hfee]

/-- C9 witness: with balance 10 and gasLimit 200 (fee 20 needed), both
routes refuse. -/
theorem fee_precondition_refusal_witness :
    isOkE (deployRoute exSem true 10 (some "fn main") 200
      (Except.ok (some [0])) "addr") = false ∧
    isOkE (interactRoute true 10 (some "c") (some "f") none 200) = false :=
  fee_precondition_refusal exSem true 10 (some "fn main") 200
    (Except.ok (some [0])) "addr" (some "c") (some "f") none
    (by norm_num [FIXED_GAS_PRICE])

/-- C10: every pooled invoke transaction carries functionArgs exactly as
coerced by the route: a non-array request value becomes the empty array,
an array is mapped elementwise by Number(v) || 0, under which NaN and the
falsy number 0 become 0 and every other number is kept. -/
theorem functionArgs_numeric_coercion (ephPresent : Bool) (balance : ℚ)
    (contractAddress functionName : Option String)
    (functionArgs : Option (List JsArg)) (gasLimit : ℚ) (tx : InteractTx)
    (h : interactRoute ephPresent balance contractAddress functionName
      functionArgs gasLimit = Except.ok tx) :
    tx.functionArgs = coerceArgs functionArgs ∧
    (functionArgs = none → tx.functionArgs = []) ∧
    (∀ l, functionArgs = some l → tx.functionArgs = l.map numberOr0) ∧
    (∀ v, toNumber v = none → numberOr0 v = 0) ∧
    (∀ v, toNumber v = some 0 → numberOr0 v = 0) ∧
    (∀ v x, toNumber v = some x → x ≠ 0 → numberOr0 v = x) := by
  have hargs : tx.functionArgs = coerceArgs functionArgs := by
    unfold interactRoute at h
    split at h
    · cases h
    split at h
    · cases h
    split at h
    · cases h
    split at h
    · cases h
    split at h
    · cases h
    cases hct : createTransaction balance 0 with
    | error msg => simp [hct] at h
    | ok u =>
      simp only [hct] at h
      cases h
      rfl
  refine ⟨hargs, ?_, ?_, ?_, ?_, ?_⟩
  · intro hnone
    rw [hargs, hnone]
    rfl
  · intro l hsome
    rw [hargs, hsome]
    rfl
  · intro v hv
    unfold numberOr0
    rw [hv]
  · intro v hv
    unfold numberOr0
    rw [hv]
    simp
  · intro v x hv hx
    unfold numberOr0
    rw [hv]
    simp [hx]

/-- C10 witness: a concrete interact request with functionArgs
containing a NaN-coercing string, the number 5 and null is pooled with
functionArgs coerced as specified, and the elementwise coercions give
0, 5 and 0. -/
theorem functionArgs_numeric_coercion_witness :
    ({ contractAddress := "c", functionName := "f",
       functionArgs := coerceArgs
         (some [JsArg.strBad, JsArg.numLit 5, JsArg.null]),
       gasLimit := 200, gasPrice := FIXED_GAS_PRICE, isDeploy := false,
       cost := 200 } : InteractTx).functionArgs =
      coerceArgs (some [JsArg.strBad, JsArg.numLit 5, JsArg.null]) ∧
    numberOr0 JsArg.strBad = 0 ∧ numberOr0 (JsArg.numLit 5) = 5 ∧
    numberOr0 JsArg.null = 0 := by
  have h := functionArgs_numeric_coercion true 1000 (some "c") (some "f")
    (some [JsArg.strBad, JsArg.numLit 5, JsArg.null]) 200
    ({ contractAddress := "c", functionName := "f",
       functionArgs := coerceArgs
         (some [JsArg.strBad, JsArg.numLit 5, JsArg.null]),
       gasLimit := 200, gasPrice := FIXED_GAS_PRICE, isDeploy := false,
       cost := 200 } : InteractTx)
    (by
      norm_num [interactRoute, jsTruthy, createTransaction, FIXED_GAS_PRICE]
      rintro (hcase | hcase) <;> exact absurd hcase (by decide))
  refine ⟨h.1, h.2.2.2.1 JsArg.strBad rfl, ?_, h.2.2.2.2.1 JsArg.null rfl⟩
  exact h.2.2.2.2.2 (JsArg.numLit 5) 5 rfl (by norm_num)
